import Mathlib

/-!
Shallow embedding of `bottom/pack.py`, the RFC2812 command serializer.

The Python module exposes three functions:
  * `f(field, kwargs, default=missing)` — scalar field accessor,
  * `pack(field, kwargs, default=missing, sep=",")` — list-or-scalar packer,
  * `pack_command(command, **kwargs)` — the dispatcher over ~40 command rules.

Parameter values in Python are arbitrary objects; the code distinguishes
strings, other iterables, and bare scalars at runtime.  We model the values
actually distinguished by the code as a tagged union: a scalar is either a
string or an integer, and a parameter value is a scalar or a sequence of
scalars.  `kwargs` is modelled as an association list with first-match
lookup, which agrees with Python dict lookup on well-formed inputs.
Python exceptions become an `Except` error type: `KeyError(field)` raised by
a defaultless access is `missingRequiredField field`, the `ValueError` for an
empty command is `invalidCommand`, and the `ValueError` for an unmatched
command is `unknownCommand`.
-/

namespace Bottom

/-- A Python scalar value as used by the serializer: a string or an integer. -/
inductive Scalar where
  | s (x : String)
  | i (n : Int)
deriving DecidableEq

/-- A parameter value: a scalar, or an ordered sequence of scalars
(a Python list/tuple).  Strings are their own constructor, never a
sequence of characters. -/
inductive Value where
  | scalar (v : Scalar)
  | seq (xs : List Scalar)
deriving DecidableEq

/-- The parameter set `kwargs`: field name to value, first match wins. -/
abbrev ParamSet := List (String × Value)

/-- Errors raised by the serializer, named as in the specification:
`KeyError(field)` from a defaultless lookup is `missingRequiredField`. -/
inductive PackError where
  | invalidCommand
  | unknownCommand (name : String)
  | missingRequiredField (field : String)
deriving DecidableEq

/-- Python `str()` on a scalar: strings pass through, integers render
in decimal. -/
def pyStrScalar : Scalar → String
  | .s x => x
  | .i n => toString n

/-- Python `repr()` on a scalar, for quote-free strings (used only to
model `str()` of a whole list, which no command template needs). -/
def pyReprScalar : Scalar → String
  | .s x => "\x27" ++ x ++ "\x27"
  | .i n => toString n

/-- Python `str()` on a parameter value. -/
def pyStr : Value → String
  | .scalar v => pyStrScalar v
  | .seq xs => "[" ++ String.intercalate ", " (xs.map pyReprScalar) ++ "]"

/-- Source function `f(field, kwargs, default=missing)`: scalar accessor.
With a default it never fails; without one a missing key raises
`KeyError(field)`. -/
def f (field : String) (kwargs : ParamSet) (default : Option Value) :
    Except PackError String :=
  match default with
  | some d => .ok (pyStr ((List.lookup field kwargs).getD d))
  | none =>
    match List.lookup field kwargs with
    | some v => .ok (pyStr v)
    | none => .error (.missingRequiredField field)

/-- The `isinstance` chain in `pack`: a string is returned unchanged, an
iterable is joined with `sep` after stringifying each element, and any
other scalar is stringified. -/
def packValue (sep : String) : Value → String
  | .scalar (.s x) => x
  | .seq xs => String.intercalate sep (xs.map pyStrScalar)
  | .scalar (.i n) => toString n

/-- Source function `pack(field, kwargs, default=missing, sep=",")`:
list-or-scalar packer. -/
def pack (field : String) (kwargs : ParamSet) (default : Option Value)
    (sep : String) : Except PackError String :=
  match default with
  | some d => .ok (packValue sep ((List.lookup field kwargs).getD d))
  | none =>
    match List.lookup field kwargs with
    | some value => .ok (packValue sep value)
    | none => .error (.missingRequiredField field)

/-- Python `str.upper()` restricted to the ASCII range the command names
use. -/
def pyUpper (str : String) : String :=
  String.mk (str.data.map Char.toUpper)

/-- The empty-string default `''` used by many optional fields. -/
def emptyS : Value := .scalar (.s "")

/-- Source: `"PASS " + f("password", kwargs)` -/
def rulePASS (kwargs : ParamSet) : Except PackError String :=
  match f "password" kwargs none with
  | .error e => .error e
  | .ok password => .ok ("PASS " ++ password)

/-- Source: `"NICK " + f("nick", kwargs)` -/
def ruleNICK (kwargs : ParamSet) : Except PackError String :=
  match f "nick" kwargs none with
  | .error e => .error e
  | .ok nick => .ok ("NICK " ++ nick)

/-- Source: `"USER {} {} * :{}".format(f("user", kwargs), f("mode", kwargs, 0), f("realname", kwargs))` -/
def ruleUSER (kwargs : ParamSet) : Except PackError String :=
  match f "user" kwargs none, f "mode" kwargs (some (.scalar (.i 0))),
        f "realname" kwargs none with
  | .error e, _, _ => .error e
  | _, .error e, _ => .error e
  | _, _, .error e => .error e
  | .ok user, .ok mode, .ok realname =>
    .ok ("USER " ++ user ++ " " ++ mode ++ " * :" ++ realname)

/-- Source: `"OPER {} {}".format(f("user", kwargs), f("password", kwargs))` -/
def ruleOPER (kwargs : ParamSet) : Except PackError String :=
  match f "user" kwargs none, f "password" kwargs none with
  | .error e, _ => .error e
  | _, .error e => .error e
  | .ok user, .ok password => .ok ("OPER " ++ user ++ " " ++ password)

/-- Source: `"MODE {} {}".format(f("nick", kwargs), f("modes", kwargs, ''))` -/
def ruleUSERMODE (kwargs : ParamSet) : Except PackError String :=
  match f "nick" kwargs none, f "modes" kwargs (some emptyS) with
  | .error e, _ => .error e
  | _, .error e => .error e
  | .ok nick, .ok modes => .ok ("MODE " ++ nick ++ " " ++ modes)

/-- Source: `"SERVICE {} * {} {} 0 :{}".format(f("nick", kwargs), f("distribution", kwargs), f("type", kwargs), f("info", kwargs))` -/
def ruleSERVICE (kwargs : ParamSet) : Except PackError String :=
  match f "nick" kwargs none, f "distribution" kwargs none,
        f "type" kwargs none, f "info" kwargs none with
  | .error e, _, _, _ => .error e
  | _, .error e, _, _ => .error e
  | _, _, .error e, _ => .error e
  | _, _, _, .error e => .error e
  | .ok nick, .ok distribution, .ok type, .ok info =>
    .ok ("SERVICE " ++ nick ++ " * " ++ distribution ++ " " ++ type ++ " 0 :" ++ info)

/-- Source: `"QUIT :" + f("message", kwargs)` when `"message" in kwargs`, else `"QUIT"` -/
def ruleQUIT (kwargs : ParamSet) : Except PackError String :=
  if (List.lookup "message" kwargs).isSome then
    match f "message" kwargs none with
    | .error e => .error e
    | .ok message => .ok ("QUIT :" ++ message)
  else .ok "QUIT"

/-- Source: `base = "SQUIT " + f("server", kwargs)`; append `" :" + f("message", kwargs)` when present -/
def ruleSQUIT (kwargs : ParamSet) : Except PackError String :=
  match f "server" kwargs none with
  | .error e => .error e
  | .ok server =>
    if (List.lookup "message" kwargs).isSome then
      match f "message" kwargs none with
      | .error e => .error e
      | .ok message => .ok ("SQUIT " ++ server ++ " :" ++ message)
    else .ok ("SQUIT " ++ server)

/-- Source: `"JOIN {} {}".format(pack("channel", kwargs), pack("key", kwargs, ''))` -/
def ruleJOIN (kwargs : ParamSet) : Except PackError String :=
  match pack "channel" kwargs none ",", pack "key" kwargs (some (.scalar (.s ""))) "," with
  | .error e, _ => .error e
  | _, .error e => .error e
  | .ok channel, .ok key => .ok ("JOIN " ++ channel ++ " " ++ key)

/-- Source: `base = "PART " + pack("channel", kwargs)`; append `" :" + f("message", kwargs)` when present -/
def rulePART (kwargs : ParamSet) : Except PackError String :=
  match pack "channel" kwargs none "," with
  | .error e => .error e
  | .ok channel =>
    if (List.lookup "message" kwargs).isSome then
      match f "message" kwargs none with
      | .error e => .error e
      | .ok message => .ok ("PART " ++ channel ++ " :" ++ message)
    else .ok ("PART " ++ channel)

/-- Source: `"MODE {} {} {}".format(f("channel", kwargs), f("modes", kwargs), f("params", kwargs, ''))` -/
def ruleCHANNELMODE (kwargs : ParamSet) : Except PackError String :=
  match f "channel" kwargs none, f "modes" kwargs none,
        f "params" kwargs (some emptyS) with
  | .error e, _, _ => .error e
  | _, .error e, _ => .error e
  | _, _, .error e => .error e
  | .ok channel, .ok modes, .ok params =>
    .ok ("MODE " ++ channel ++ " " ++ modes ++ " " ++ params)

/-- Source: `base = "TOPIC " + f("channel", kwargs)`; append `" :" + f("message", kwargs)` when present -/
def ruleTOPIC (kwargs : ParamSet) : Except PackError String :=
  match f "channel" kwargs none with
  | .error e => .error e
  | .ok channel =>
    if (List.lookup "message" kwargs).isSome then
      match f "message" kwargs none with
      | .error e => .error e
      | .ok message => .ok ("TOPIC " ++ channel ++ " :" ++ message)
    else .ok ("TOPIC " ++ channel)

/-- Source: `"NAMES " + pack("channel", kwargs, '')` -/
def ruleNAMES (kwargs : ParamSet) : Except PackError String :=
  match pack "channel" kwargs (some emptyS) "," with
  | .error e => .error e
  | .ok channel => .ok ("NAMES " ++ channel)

/-- Source: `"LIST " + pack("channel", kwargs, '')` -/
def ruleLIST (kwargs : ParamSet) : Except PackError String :=
  match pack "channel" kwargs (some emptyS) "," with
  | .error e => .error e
  | .ok channel => .ok ("LIST " ++ channel)

/-- Source: `"INVITE {} {}".format(f("nick", kwargs), f("channel", kwargs))` -/
def ruleINVITE (kwargs : ParamSet) : Except PackError String :=
  match f "nick" kwargs none, f "channel" kwargs none with
  | .error e, _ => .error e
  | _, .error e => .error e
  | .ok nick, .ok channel => .ok ("INVITE " ++ nick ++ " " ++ channel)

/-- Source: `base = "KICK {} {}".format(pack("channel", kwargs), pack("nick", kwargs))`; append `" :" + pack("message", kwargs)` when present -/
def ruleKICK (kwargs : ParamSet) : Except PackError String :=
  match pack "channel" kwargs none ",", pack "nick" kwargs none "," with
  | .error e, _ => .error e
  | _, .error e => .error e
  | .ok channel, .ok nick =>
    if (List.lookup "message" kwargs).isSome then
      match pack "message" kwargs none "," with
      | .error e => .error e
      | .ok message => .ok ("KICK " ++ channel ++ " " ++ nick ++ " :" ++ message)
    else .ok ("KICK " ++ channel ++ " " ++ nick)

/-- Source: `"PRIVMSG {} :{}".format(f("target", kwargs), f("message", kwargs))` -/
def rulePRIVMSG (kwargs : ParamSet) : Except PackError String :=
  match f "target" kwargs none, f "message" kwargs none with
  | .error e, _ => .error e
  | _, .error e => .error e
  | .ok target, .ok message => .ok ("PRIVMSG " ++ target ++ " :" ++ message)

/-- Source: `"NOTICE {} :{}".format(f("target", kwargs), f("message", kwargs))` -/
def ruleNOTICE (kwargs : ParamSet) : Except PackError String :=
  match f "target" kwargs none, f "message" kwargs none with
  | .error e, _ => .error e
  | _, .error e => .error e
  | .ok target, .ok message => .ok ("NOTICE " ++ target ++ " :" ++ message)

/-- Source: `"LUSERS " + f("mask", kwargs, '')` -/
def ruleLUSERS (kwargs : ParamSet) : Except PackError String :=
  match f "mask" kwargs (some emptyS) with
  | .error e => .error e
  | .ok mask => .ok ("LUSERS " ++ mask)

/-- Source: `"STATS " + f("query", kwargs, '')` -/
def ruleSTATS (kwargs : ParamSet) : Except PackError String :=
  match f "query" kwargs (some emptyS) with
  | .error e => .error e
  | .ok query => .ok ("STATS " ++ query)

/-- Source: `LINKS` returns `"LINKS {} {}"` of remote and mask when remote present,
`"LINKS " + mask` when only mask present, bare `"LINKS"` otherwise -/
def ruleLINKS (kwargs : ParamSet) : Except PackError String :=
  if (List.lookup "remote" kwargs).isSome then
    match f "remote" kwargs none, f "mask" kwargs none with
    | .error e, _ => .error e
    | _, .error e => .error e
    | .ok remote, .ok mask => .ok ("LINKS " ++ remote ++ " " ++ mask)
  else if (List.lookup "mask" kwargs).isSome then
    match f "mask" kwargs none with
    | .error e => .error e
    | .ok mask => .ok ("LINKS " ++ mask)
  else .ok "LINKS"

/-- Source: `"CONNECT {} {} {}".format(f("target", kwargs), f("port", kwargs), f("remote", kwargs, ''))` -/
def ruleCONNECT (kwargs : ParamSet) : Except PackError String :=
  match f "target" kwargs none, f "port" kwargs none,
        f "remote" kwargs (some emptyS) with
  | .error e, _, _ => .error e
  | _, .error e, _ => .error e
  | _, _, .error e => .error e
  | .ok target, .ok port, .ok remote =>
    .ok ("CONNECT " ++ target ++ " " ++ port ++ " " ++ remote)

/-- Source: `"SERVLIST {} {}".format(f("mask", kwargs, ''), f("type", kwargs, ''))` -/
def ruleSERVLIST (kwargs : ParamSet) : Except PackError String :=
  match f "mask" kwargs (some emptyS), f "type" kwargs (some emptyS) with
  | .error e, _ => .error e
  | _, .error e => .error e
  | .ok mask, .ok type => .ok ("SERVLIST " ++ mask ++ " " ++ type)

/-- Source: `"SQUERY {} :{}".format(f("target", kwargs), f("message", kwargs))` -/
def ruleSQUERY (kwargs : ParamSet) : Except PackError String :=
  match f "target" kwargs none, f "message" kwargs none with
  | .error e, _ => .error e
  | _, .error e => .error e
  | .ok target, .ok message => .ok ("SQUERY " ++ target ++ " :" ++ message)

/-- Source: `"WHO " + f("mask", kwargs, '')` -/
def ruleWHO (kwargs : ParamSet) : Except PackError String :=
  match f "mask" kwargs (some emptyS) with
  | .error e => .error e
  | .ok mask => .ok ("WHO " ++ mask)

/-- Source: `"WHOIS " + f("mask", kwargs)` -/
def ruleWHOIS (kwargs : ParamSet) : Except PackError String :=
  match f "mask" kwargs none with
  | .error e => .error e
  | .ok mask => .ok ("WHOIS " ++ mask)

/-- Source: `"WHOWAS {} {}".format(pack("nick", kwargs), f("count", kwargs, ''))` -/
def ruleWHOWAS (kwargs : ParamSet) : Except PackError String :=
  match pack "nick" kwargs none ",", f "count" kwargs (some emptyS) with
  | .error e, _ => .error e
  | _, .error e => .error e
  | .ok nick, .ok count => .ok ("WHOWAS " ++ nick ++ " " ++ count)

/-- Source: `"KILL {} :{}".format(f("nick", kwargs), f("message", kwargs))` -/
def ruleKILL (kwargs : ParamSet) : Except PackError String :=
  match f "nick" kwargs none, f "message" kwargs none with
  | .error e, _ => .error e
  | _, .error e => .error e
  | .ok nick, .ok message => .ok ("KILL " ++ nick ++ " :" ++ message)

/-- Source: `message = "PING {} {}".format(f("server1", kwargs, ''), f("server2", kwargs, ''))`; append `" :" + f("message", kwargs)` when present -/
def rulePING (kwargs : ParamSet) : Except PackError String :=
  match f "server1" kwargs (some emptyS), f "server2" kwargs (some emptyS) with
  | .error e, _ => .error e
  | _, .error e => .error e
  | .ok server1, .ok server2 =>
    if (List.lookup "message" kwargs).isSome then
      match f "message" kwargs none with
      | .error e => .error e
      | .ok message =>
        .ok ("PING " ++ server1 ++ " " ++ server2 ++ " :" ++ message)
    else .ok ("PING " ++ server1 ++ " " ++ server2)

/-- Source: `message = "PONG {} {}".format(f("server1", kwargs, ''), f("server2", kwargs, ''))`; append `" :" + f("message", kwargs)` when present -/
def rulePONG (kwargs : ParamSet) : Except PackError String :=
  match f "server1" kwargs (some emptyS), f "server2" kwargs (some emptyS) with
  | .error e, _ => .error e
  | _, .error e => .error e
  | .ok server1, .ok server2 =>
    if (List.lookup "message" kwargs).isSome then
      match f "message" kwargs none with
      | .error e => .error e
      | .ok message =>
        .ok ("PONG " ++ server1 ++ " " ++ server2 ++ " :" ++ message)
    else .ok ("PONG " ++ server1 ++ " " ++ server2)

/-- Source: `"AWAY :" + f("message", kwargs)` when present, else `"AWAY"` -/
def ruleAWAY (kwargs : ParamSet) : Except PackError String :=
  if (List.lookup "message" kwargs).isSome then
    match f "message" kwargs none with
    | .error e => .error e
    | .ok message => .ok ("AWAY :" ++ message)
  else .ok "AWAY"

/-- Source: `"SUMMON {} {}".format(f("nick", kwargs), f("channel", kwargs, ''))` -/
def ruleSUMMON (kwargs : ParamSet) : Except PackError String :=
  match f "nick" kwargs none, f "channel" kwargs (some emptyS) with
  | .error e, _ => .error e
  | _, .error e => .error e
  | .ok nick, .ok channel => .ok ("SUMMON " ++ nick ++ " " ++ channel)

/-- Source: `"WALLOPS :" + f("message", kwargs)` -/
def ruleWALLOPS (kwargs : ParamSet) : Except PackError String :=
  match f "message" kwargs none with
  | .error e => .error e
  | .ok message => .ok ("WALLOPS :" ++ message)

/-- Source: `"USERHOST " + pack("nick", kwargs, sep=" ")` — note: no default, nick is required -/
def ruleUSERHOST (kwargs : ParamSet) : Except PackError String :=
  match pack "nick" kwargs none " " with
  | .error e => .error e
  | .ok nick => .ok ("USERHOST " ++ nick)

/-- Source: `"ISON " + pack("nick", kwargs, sep=" ")` — note: no default, nick is required -/
def ruleISON (kwargs : ParamSet) : Except PackError String :=
  match pack "nick" kwargs none " " with
  | .error e => .error e
  | .ok nick => .ok ("ISON " ++ nick)

/-- Source function `pack_command(command, **kwargs)`: reject an empty command, uppercase
the name, then run the branch of the `if/elif` chain that matches; an
unmatched name raises `ValueError("Unknown command ...")` with the
uppercased name. -/
def pack_command (command : String) (kwargs : ParamSet) :
    Except PackError String :=
  if command = "" then .error .invalidCommand
  else
    match pyUpper command with
    | "PASS" => rulePASS kwargs
    | "NICK" => ruleNICK kwargs
    | "USER" => ruleUSER kwargs
    | "OPER" => ruleOPER kwargs
    | "USERMODE" => ruleUSERMODE kwargs
    | "SERVICE" => ruleSERVICE kwargs
    | "QUIT" => ruleQUIT kwargs
    | "SQUIT" => ruleSQUIT kwargs
    | "JOIN" => ruleJOIN kwargs
    | "PART" => rulePART kwargs
    | "CHANNELMODE" => ruleCHANNELMODE kwargs
    | "TOPIC" => ruleTOPIC kwargs
    | "NAMES" => ruleNAMES kwargs
    | "LIST" => ruleLIST kwargs
    | "INVITE" => ruleINVITE kwargs
    | "KICK" => ruleKICK kwargs
    | "PRIVMSG" => rulePRIVMSG kwargs
    | "NOTICE" => ruleNOTICE kwargs
    | "MOTD" => .ok "MOTD"
    | "LUSERS" => ruleLUSERS kwargs
    | "VERSION" => .ok "VERSION"
    | "STATS" => ruleSTATS kwargs
    | "LINKS" => ruleLINKS kwargs
    | "TIME" => .ok "TIME"
    | "CONNECT" => ruleCONNECT kwargs
    | "TRACE" => .ok "TRACE"
    | "ADMIN" => .ok "ADMIN"
    | "INFO" => .ok "INFO"
    | "SERVLIST" => ruleSERVLIST kwargs
    | "SQUERY" => ruleSQUERY kwargs
    | "WHO" => ruleWHO kwargs
    | "WHOIS" => ruleWHOIS kwargs
    | "WHOWAS" => ruleWHOWAS kwargs
    | "KILL" => ruleKILL kwargs
    | "PING" => rulePING kwargs
    | "PONG" => rulePONG kwargs
    | "AWAY" => ruleAWAY kwargs
    | "REHASH" => .ok "REHASH"
    | "DIE" => .ok "DIE"
    | "RESTART" => .ok "RESTART"
    | "SUMMON" => ruleSUMMON kwargs
    | "USERS" => .ok "USERS"
    | "WALLOPS" => ruleWALLOPS kwargs
    | "USERHOST" => ruleUSERHOST kwargs
    | "ISON" => ruleISON kwargs
    | other => .error (.unknownCommand other)

/-- Predicate: `out` begins with the word `w`: it is exactly `w`, or `w` followed by a
space begins it. -/
abbrev beginsWith (w out : String) : Prop :=
  out = w ∨ (w ++ " ").data <+: out.data

/-- The command word a rule's output actually starts with: USERMODE and
CHANNELMODE emit `MODE`, every other supported command emits its own
(uppercase) name. -/
def emitWord : String → String
  | "USERMODE" => "MODE"
  | "CHANNELMODE" => "MODE"
  | u => u

/-- The (command, field) pairs the grammar table reads through the list
packer `pack` (so a sequence value is joined rather than stringified). -/
def listJoinable : List (String × String) :=
  [("JOIN", "channel"), ("JOIN", "key"), ("PART", "channel"),
   ("NAMES", "channel"), ("LIST", "channel"), ("KICK", "channel"),
   ("KICK", "nick"), ("KICK", "message"), ("WHOWAS", "nick"),
   ("USERHOST", "nick"), ("ISON", "nick")]

/-! Helper lemmas about lookups and the packers. -/

theorem lookup_cons_self (fl : String) (w : Value) (kw : ParamSet) :
    List.lookup fl ((fl, w) :: kw) = some w := by
  simp [List.lookup]

theorem lookup_cons_ne {g fl : String} (w : Value) (kw : ParamSet)
    (h : g ≠ fl) : List.lookup g ((fl, w) :: kw) = List.lookup g kw := by
  simp only [List.lookup]
  rw [show (g == fl) = false from beq_eq_false_iff_ne.mpr h]

theorem packValue_singleton (sep : String) (v : Scalar) :
    packValue sep (.seq [v]) = packValue sep (.scalar v) := by
  cases v <;> rfl

theorem pack_cons_self (fl : String) (w : Value) (kw : ParamSet)
    (d : Option Value) (sep : String) :
    pack fl ((fl, w) :: kw) d sep = .ok (packValue sep w) := by
  cases d <;> simp [pack, lookup_cons_self]

theorem pack_cons_ne {g fl : String} (w : Value) (kw : ParamSet)
    (d : Option Value) (sep : String) (h : g ≠ fl) :
    pack g ((fl, w) :: kw) d sep = pack g kw d sep := by
  unfold pack
  rw [lookup_cons_ne w kw h]

theorem f_cons_ne {g fl : String} (w : Value) (kw : ParamSet)
    (d : Option Value) (h : g ≠ fl) :
    f g ((fl, w) :: kw) d = f g kw d := by
  unfold f
  rw [lookup_cons_ne w kw h]

theorem data_prefix_append {s t : String} (l : List Char)
    (h : l <+: s.data) : l <+: (s ++ t).data := by
  rw [String.data_append]
  exact h.trans (List.prefix_append _ _)

theorem pyUpper_eq_empty {str : String} (h : pyUpper str = "") : str = "" := by
  cases str with
  | mk data =>
    simp [pyUpper, String.ext_iff] at h ⊢
    exact h

/-! Dispatch equations: for a concrete command name the dispatcher reduces
to the corresponding grammar rule. -/

theorem pack_command_JOIN (kwargs : ParamSet) :
    pack_command "JOIN" kwargs = ruleJOIN kwargs := rfl

theorem pack_command_PART (kwargs : ParamSet) :
    pack_command "PART" kwargs = rulePART kwargs := rfl

theorem pack_command_NAMES (kwargs : ParamSet) :
    pack_command "NAMES" kwargs = ruleNAMES kwargs := rfl

theorem pack_command_LIST (kwargs : ParamSet) :
    pack_command "LIST" kwargs = ruleLIST kwargs := rfl

theorem pack_command_KICK (kwargs : ParamSet) :
    pack_command "KICK" kwargs = ruleKICK kwargs := rfl

theorem pack_command_WHOWAS (kwargs : ParamSet) :
    pack_command "WHOWAS" kwargs = ruleWHOWAS kwargs := rfl

theorem pack_command_USERHOST (kwargs : ParamSet) :
    pack_command "USERHOST" kwargs = ruleUSERHOST kwargs := rfl

theorem pack_command_ISON (kwargs : ParamSet) :
    pack_command "ISON" kwargs = ruleISON kwargs := rfl

theorem eval_join_lowercase : pack_command "join" [("channel", .scalar (.s "#a"))] = .ok "JOIN #a " := rfl

theorem eval_pass_missing_password : pack_command "PASS" [] = .error (.missingRequiredField "password") := rfl

theorem eval_service_example : pack_command "service"
    [("nick", .scalar (.s "dict")), ("distribution", .scalar (.s "*.fr")),
     ("type", .scalar (.i 0)), ("info", .scalar (.s "French"))] =
    .ok "SERVICE dict * *.fr 0 0 :French" := rfl

theorem eval_userhost_list : pack_command "USERHOST"
    [("nick", .seq [.s "Wiz", .s "Michael", .s "syrk"])] =
    .ok "USERHOST Wiz Michael syrk" := rfl

theorem eval_unknown_command : pack_command "XYZZY" [] = .error (.unknownCommand "XYZZY") := rfl

theorem eval_empty_command : pack_command "" [] = .error .invalidCommand := rfl

theorem eval_quit_bare : pack_command "quit" [] = .ok "QUIT" := rfl

theorem eval_quit_message : pack_command "QUIT" [("message", .scalar (.s "bye"))] = .ok "QUIT :bye" := rfl

theorem eval_links_remote_only : pack_command "LINKS" [("remote", .scalar (.s "*.edu"))] =
    .error (.missingRequiredField "mask") := rfl

theorem eval_ping_empty : pack_command "Ping" [] = .ok "PING  " := rfl

theorem eval_usermode_renamed : pack_command "USERMODE" [("nick", .scalar (.s "WiZ"))] = .ok "MODE WiZ " := rfl

/-! The claims. -/

/-- C1 as stated is false on the code: with nick="dict", distribution="*.fr",
type="0", info="French", `pack_command "SERVICE"` returns
"SERVICE dict * *.fr 0 0 :French" — the stringified distribution field comes
before the stringified type field — not "SERVICE dict * 0 *.fr 0 :French" as
the claimed template `SERVICE <nick> * <type> <dist> 0 :<info>` requires. -/
theorem C1_counterexample :
    pack_command "SERVICE"
      [("nick", .scalar (.s "dict")), ("distribution", .scalar (.s "*.fr")),
       ("type", .scalar (.s "0")), ("info", .scalar (.s "French"))] =
      .ok "SERVICE dict * *.fr 0 0 :French" ∧
    pack_command "SERVICE"
      [("nick", .scalar (.s "dict")), ("distribution", .scalar (.s "*.fr")),
       ("type", .scalar (.s "0")), ("info", .scalar (.s "French"))] ≠
      .ok "SERVICE dict * 0 *.fr 0 :French" := by
  refine ⟨rfl, fun h => ?_⟩
  rw [show pack_command "SERVICE"
      [("nick", .scalar (.s "dict")), ("distribution", .scalar (.s "*.fr")),
       ("type", .scalar (.s "0")), ("info", .scalar (.s "French"))] =
      .ok "SERVICE dict * *.fr 0 0 :French" from rfl] at h
  exact absurd (Except.ok.inj h) (by decide)

/-- C1 amended: for every parameter set containing nick, distribution, type
and info, `pack_command "SERVICE"` returns
`SERVICE <nick> * <dist> <type> 0 :<info>` — the stringified distribution
field appears before the stringified type field in the output. -/
theorem C1_service_order (kwargs : ParamSet) (n d t i : Value)
    (hn : List.lookup "nick" kwargs = some n)
    (hd : List.lookup "distribution" kwargs = some d)
    (ht : List.lookup "type" kwargs = some t)
    (hi : List.lookup "info" kwargs = some i) :
    pack_command "SERVICE" kwargs =
      .ok ("SERVICE " ++ pyStr n ++ " * " ++ pyStr d ++ " " ++ pyStr t ++
        " 0 :" ++ pyStr i) := by
  show ruleSERVICE kwargs = _
  simp [ruleSERVICE, f, hn, hd, ht, hi]

/-- Witness for C1 amended at the RFC example input. -/
theorem C1_service_order_witness :
    pack_command "SERVICE"
      [("nick", .scalar (.s "dict")), ("distribution", .scalar (.s "*.fr")),
       ("type", .scalar (.i 0)), ("info", .scalar (.s "French"))] =
      .ok "SERVICE dict * *.fr 0 0 :French" :=
  C1_service_order
    [("nick", .scalar (.s "dict")), ("distribution", .scalar (.s "*.fr")),
     ("type", .scalar (.i 0)), ("info", .scalar (.s "French"))]
    (.scalar (.s "dict")) (.scalar (.s "*.fr")) (.scalar (.i 0))
    (.scalar (.s "French")) rfl rfl rfl rfl

/-- C2 as stated is false on the code: `pack("nick", kwargs, sep=" ")` passes
no default, so a missing nick raises `KeyError("nick")` instead of returning
"USERHOST " (resp. "ISON "). -/
theorem C2_counterexample :
    pack_command "USERHOST" [] = .error (.missingRequiredField "nick") ∧
    pack_command "ISON" [] = .error (.missingRequiredField "nick") ∧
    pack_command "USERHOST" [] ≠ .ok "USERHOST " ∧
    pack_command "ISON" [] ≠ .ok "ISON " := by
  refine ⟨rfl, rfl, fun h => ?_, fun h => ?_⟩
  · rw [show pack_command "USERHOST" [] =
        .error (.missingRequiredField "nick") from rfl] at h
    exact Except.noConfusion h
  · rw [show pack_command "ISON" [] =
        .error (.missingRequiredField "nick") from rfl] at h
    exact Except.noConfusion h

/-- C2 amended: for USERHOST and ISON the nick field is required (the list
packer is called with no default): when nick is absent the call fails with
`MissingRequiredField("nick")`. -/
theorem C2_userhost_ison_nick_required (kwargs : ParamSet)
    (h : List.lookup "nick" kwargs = none) :
    pack_command "USERHOST" kwargs = .error (.missingRequiredField "nick") ∧
    pack_command "ISON" kwargs = .error (.missingRequiredField "nick") := by
  constructor
  · show ruleUSERHOST kwargs = _
    simp [ruleUSERHOST, pack, h]
  · show ruleISON kwargs = _
    simp [ruleISON, pack, h]

/-- Witness for C2 amended at the empty parameter set. -/
theorem C2_userhost_ison_nick_required_witness :
    pack_command "USERHOST" [] = .error (.missingRequiredField "nick") ∧
    pack_command "ISON" [] = .error (.missingRequiredField "nick") :=
  C2_userhost_ison_nick_required [] rfl

/-- C4: for every parameter set containing channel but not key,
`pack_command "JOIN"` substitutes the empty default for key and returns the
packed channel text followed by a trailing space, which is preserved. -/
theorem C4_join_trailing_space (kwargs : ParamSet) (ch : Value)
    (hch : List.lookup "channel" kwargs = some ch)
    (hkey : List.lookup "key" kwargs = none) :
    pack_command "JOIN" kwargs = .ok ("JOIN " ++ packValue "," ch ++ " ") := by
  show ruleJOIN kwargs = _
  simp [ruleJOIN, pack, hch, hkey, emptyS, packValue]

/-- Witness for C4: `pack_command "JOIN"` with channel "#a" and no key
returns "JOIN #a " with the trailing space. -/
theorem C4_join_trailing_space_witness :
    pack_command "JOIN" [("channel", .scalar (.s "#a"))] = .ok "JOIN #a " :=
  C4_join_trailing_space [("channel", .scalar (.s "#a"))]
    (.scalar (.s "#a")) rfl rfl

/-- C7: when the value the list packer resolves for a field is a single
string, it is returned unchanged — never decomposed into characters and
joined with the separator.  Stated for the `isinstance` chain itself, for a
present field, and for an absent field whose default is a string. -/
theorem C7_string_passthrough :
    (∀ sep x, packValue sep (.scalar (.s x)) = x) ∧
    (∀ field kwargs d sep x,
      List.lookup field kwargs = some (.scalar (.s x)) →
      pack field kwargs d sep = .ok x) ∧
    (∀ field kwargs sep x,
      List.lookup field kwargs = none →
      pack field kwargs (some (.scalar (.s x))) sep = .ok x) := by
  refine ⟨fun sep x => rfl, ?_, ?_⟩
  · intro field kwargs d sep x h
    cases d <;> simp [pack, h, packValue]
  · intro field kwargs sep x h
    simp [pack, h, packValue]

/-- Witness for C7: a three-character string field is passed through intact,
not comma-joined. -/
theorem C7_string_passthrough_witness :
    packValue "," (.scalar (.s "abc")) = "abc" ∧
    pack "channel" [("channel", .scalar (.s "abc"))] none "," = .ok "abc" ∧
    pack "key" [] (some (.scalar (.s "abc"))) "," = .ok "abc" :=
  ⟨C7_string_passthrough.1 "," "abc",
   C7_string_passthrough.2.1 "channel" _ none "," "abc" rfl,
   C7_string_passthrough.2.2 "key" [] "," "abc" rfl⟩

/-- C8: a field accessed with no default fails with a missing-required-field
error naming that field when it is absent — for the scalar accessor `f` and
the list packer `pack` — and in particular `pack_command "PASS" {}` fails
with `MissingRequiredField("password")`. -/
theorem C8_missing_required_field :
    (∀ field kwargs, List.lookup field kwargs = none →
      f field kwargs none = .error (.missingRequiredField field)) ∧
    (∀ field kwargs sep, List.lookup field kwargs = none →
      pack field kwargs none sep = .error (.missingRequiredField field)) ∧
    pack_command "PASS" [] = .error (.missingRequiredField "password") := by
  refine ⟨?_, ?_, rfl⟩
  · intro field kwargs h
    simp [f, h]
  · intro field kwargs sep h
    simp [pack, h]

/-- Witness for C8 at concrete absent fields. -/
theorem C8_missing_required_field_witness :
    f "password" [("nick", Value.scalar (.s "Wiz"))] none =
      .error (.missingRequiredField "password") ∧
    pack "channel" [] none "," = .error (.missingRequiredField "channel") ∧
    pack_command "PASS" [] = .error (.missingRequiredField "password") :=
  ⟨C8_missing_required_field.1 "password" _ rfl,
   C8_missing_required_field.2.1 "channel" [] "," rfl,
   C8_missing_required_field.2.2⟩

/-- C9: `pack_command "QUIT" {}` returns exactly "QUIT", and for every
parameter set containing message it returns "QUIT :" followed by the
stringified message. -/
theorem C9_quit_shape :
    pack_command "QUIT" [] = .ok "QUIT" ∧
    (∀ kwargs m, List.lookup "message" kwargs = some m →
      pack_command "QUIT" kwargs = .ok ("QUIT :" ++ pyStr m)) := by
  refine ⟨rfl, ?_⟩
  intro kwargs m h
  show ruleQUIT kwargs = _
  simp [ruleQUIT, f, h]

/-- Witness for C9: both concrete scenarios from the specification. -/
theorem C9_quit_shape_witness :
    pack_command "QUIT" [] = .ok "QUIT" ∧
    pack_command "QUIT" [("message", .scalar (.s "bye"))] = .ok "QUIT :bye" :=
  ⟨C9_quit_shape.1,
   C9_quit_shape.2 [("message", .scalar (.s "bye"))] (.scalar (.s "bye")) rfl⟩

/-- C10: for LINKS, mask is required exactly when remote is present: remote
without mask fails with `MissingRequiredField("mask")`; mask without remote
returns "LINKS <mask>"; neither returns "LINKS"; both return
"LINKS <remote> <mask>". -/
theorem C10_links_conditional (kwargs : ParamSet) :
    (∀ r, List.lookup "remote" kwargs = some r →
      List.lookup "mask" kwargs = none →
      pack_command "LINKS" kwargs = .error (.missingRequiredField "mask")) ∧
    (∀ m, List.lookup "mask" kwargs = some m →
      List.lookup "remote" kwargs = none →
      pack_command "LINKS" kwargs = .ok ("LINKS " ++ pyStr m)) ∧
    (List.lookup "remote" kwargs = none →
      List.lookup "mask" kwargs = none →
      pack_command "LINKS" kwargs = .ok "LINKS") ∧
    (∀ r m, List.lookup "remote" kwargs = some r →
      List.lookup "mask" kwargs = some m →
      pack_command "LINKS" kwargs =
        .ok ("LINKS " ++ pyStr r ++ " " ++ pyStr m)) := by
  refine ⟨?_, ?_, ?_, ?_⟩
  · intro r hr hm
    show ruleLINKS kwargs = _
    simp [ruleLINKS, f, hr, hm]
  · intro m hm hr
    show ruleLINKS kwargs = _
    simp [ruleLINKS, f, hr, hm]
  · intro hr hm
    show ruleLINKS kwargs = _
    simp [ruleLINKS, f, hr, hm]
  · intro r m hr hm
    show ruleLINKS kwargs = _
    simp [ruleLINKS, f, hr, hm]

/-- Witness for C10 at the four concrete LINKS inputs. -/
theorem C10_links_conditional_witness :
    pack_command "LINKS" [("remote", .scalar (.s "*.edu"))] =
      .error (.missingRequiredField "mask") ∧
    pack_command "LINKS" [("mask", .scalar (.s "*.au"))] = .ok "LINKS *.au" ∧
    pack_command "LINKS" [] = .ok "LINKS" ∧
    pack_command "LINKS"
      [("remote", .scalar (.s "*.edu")), ("mask", .scalar (.s "*.bu.edu"))] =
      .ok "LINKS *.edu *.bu.edu" :=
  ⟨(C10_links_conditional [("remote", .scalar (.s "*.edu"))]).1
     (.scalar (.s "*.edu")) rfl rfl,
   (C10_links_conditional [("mask", .scalar (.s "*.au"))]).2.1
     (.scalar (.s "*.au")) rfl rfl,
   (C10_links_conditional []).2.2.1 rfl rfl,
   (C10_links_conditional
     [("remote", .scalar (.s "*.edu")), ("mask", .scalar (.s "*.bu.edu"))]).2.2.2
     (.scalar (.s "*.edu")) (.scalar (.s "*.bu.edu")) rfl rfl⟩

/-- C6: `pack_command` is case-insensitive in the command name: two command
strings with the same uppercasing give identical results — the same output
string on success and the same error otherwise. -/
theorem C6_case_insensitive (c1 c2 : String) (kwargs : ParamSet)
    (h : pyUpper c1 = pyUpper c2) :
    pack_command c1 kwargs = pack_command c2 kwargs := by
  unfold pack_command
  by_cases h1 : c1 = ""
  · have h2 : c2 = "" := pyUpper_eq_empty (by rw [← h, h1]; rfl)
    rw [if_pos h1, if_pos h2]
  · have h2 : c2 ≠ "" := fun e => h1 (pyUpper_eq_empty (by rw [h, e]; rfl))
    rw [if_neg h1, if_neg h2, h]

/-- Witness for C6: "join", "Join" and "JOIN" all pack identically. -/
theorem C6_case_insensitive_witness :
    pack_command "join" [("channel", .scalar (.s "#foo"))] =
      pack_command "JOIN" [("channel", .scalar (.s "#foo"))] ∧
    pack_command "Join" [("channel", .scalar (.s "#foo"))] =
      pack_command "JOIN" [("channel", .scalar (.s "#foo"))] :=
  ⟨C6_case_insensitive "join" "JOIN" [("channel", .scalar (.s "#foo"))] rfl,
   C6_case_insensitive "Join" "JOIN" [("channel", .scalar (.s "#foo"))] rfl⟩

/-- C5: the list packer on a one-element sequence returns the same string as
on the equivalent scalar — for the `isinstance` chain itself, for any field
resolution, and consequently for every list-joinable field of every command
in the grammar table. -/
theorem C5_singleton_eq_scalar :
    (∀ sep v, packValue sep (.seq [v]) = packValue sep (.scalar v)) ∧
    (∀ field kwargs1 kwargs2 default sep v,
      List.lookup field kwargs1 = some (.seq [v]) →
      List.lookup field kwargs2 = some (.scalar v) →
      pack field kwargs1 default sep = pack field kwargs2 default sep) ∧
    (∀ cmd field, (cmd, field) ∈ listJoinable → ∀ v kwargs,
      pack_command cmd ((field, Value.seq [v]) :: kwargs) =
      pack_command cmd ((field, Value.scalar v) :: kwargs)) := by
  refine ⟨packValue_singleton, ?_, ?_⟩
  · intro field kwargs1 kwargs2 default sep v h1 h2
    cases default <;> simp [pack, h1, h2, packValue_singleton]
  · intro cmd field h v kwargs
    fin_cases h
    · rw [pack_command_JOIN, pack_command_JOIN]
      unfold ruleJOIN
      rw [pack_cons_self, pack_cons_self, packValue_singleton,
        @pack_cons_ne "key" "channel" (Value.seq [v]) _ _ _ (by decide),
        @pack_cons_ne "key" "channel" (Value.scalar v) _ _ _ (by decide)]
    · rw [pack_command_JOIN, pack_command_JOIN]
      unfold ruleJOIN
      rw [pack_cons_self, pack_cons_self, packValue_singleton,
        @pack_cons_ne "channel" "key" (Value.seq [v]) _ _ _ (by decide),
        @pack_cons_ne "channel" "key" (Value.scalar v) _ _ _ (by decide)]
    · rw [pack_command_PART, pack_command_PART]
      unfold rulePART
      rw [pack_cons_self, pack_cons_self, packValue_singleton,
        @lookup_cons_ne "message" "channel" (Value.seq [v]) _ (by decide),
        @lookup_cons_ne "message" "channel" (Value.scalar v) _ (by decide),
        @f_cons_ne "message" "channel" (Value.seq [v]) _ _ (by decide),
        @f_cons_ne "message" "channel" (Value.scalar v) _ _ (by decide)]
    · rw [pack_command_NAMES, pack_command_NAMES]
      unfold ruleNAMES
      rw [pack_cons_self, pack_cons_self, packValue_singleton]
    · rw [pack_command_LIST, pack_command_LIST]
      unfold ruleLIST
      rw [pack_cons_self, pack_cons_self, packValue_singleton]
    · rw [pack_command_KICK, pack_command_KICK]
      unfold ruleKICK
      rw [pack_cons_self, pack_cons_self, packValue_singleton,
        @pack_cons_ne "nick" "channel" (Value.seq [v]) _ _ _ (by decide),
        @pack_cons_ne "nick" "channel" (Value.scalar v) _ _ _ (by decide),
        @lookup_cons_ne "message" "channel" (Value.seq [v]) _ (by decide),
        @lookup_cons_ne "message" "channel" (Value.scalar v) _ (by decide),
        @pack_cons_ne "message" "channel" (Value.seq [v]) _ _ _ (by decide),
        @pack_cons_ne "message" "channel" (Value.scalar v) _ _ _ (by decide)]
    · rw [pack_command_KICK, pack_command_KICK]
      unfold ruleKICK
      rw [pack_cons_self, pack_cons_self, packValue_singleton,
        @pack_cons_ne "channel" "nick" (Value.seq [v]) _ _ _ (by decide),
        @pack_cons_ne "channel" "nick" (Value.scalar v) _ _ _ (by decide),
        @lookup_cons_ne "message" "nick" (Value.seq [v]) _ (by decide),
        @lookup_cons_ne "message" "nick" (Value.scalar v) _ (by decide),
        @pack_cons_ne "message" "nick" (Value.seq [v]) _ _ _ (by decide),
        @pack_cons_ne "message" "nick" (Value.scalar v) _ _ _ (by decide)]
    · rw [pack_command_KICK, pack_command_KICK]
      unfold ruleKICK
      rw [pack_cons_self, pack_cons_self, packValue_singleton,
        @pack_cons_ne "channel" "message" (Value.seq [v]) _ _ _ (by decide),
        @pack_cons_ne "channel" "message" (Value.scalar v) _ _ _ (by decide),
        @pack_cons_ne "nick" "message" (Value.seq [v]) _ _ _ (by decide),
        @pack_cons_ne "nick" "message" (Value.scalar v) _ _ _ (by decide),
        lookup_cons_self "message" (Value.seq [v]),
        lookup_cons_self "message" (Value.scalar v)]
      simp
    · rw [pack_command_WHOWAS, pack_command_WHOWAS]
      unfold ruleWHOWAS
      rw [pack_cons_self, pack_cons_self, packValue_singleton,
        @f_cons_ne "count" "nick" (Value.seq [v]) _ _ (by decide),
        @f_cons_ne "count" "nick" (Value.scalar v) _ _ (by decide)]
    · rw [pack_command_USERHOST, pack_command_USERHOST]
      unfold ruleUSERHOST
      rw [pack_cons_self, pack_cons_self, packValue_singleton]
    · rw [pack_command_ISON, pack_command_ISON]
      unfold ruleISON
      rw [pack_cons_self, pack_cons_self, packValue_singleton]

/-- Witness for C5: concrete instances of all three conjuncts, including the
one-element channel list for JOIN. -/
theorem C5_singleton_eq_scalar_witness :
    pack "channel" [("channel", .seq [.s "#a"])] none "," =
      pack "channel" [("channel", .scalar (.s "#a"))] none "," ∧
    pack_command "JOIN" [("channel", Value.seq [.s "#a"])] =
      pack_command "JOIN" [("channel", Value.scalar (.s "#a"))] :=
  ⟨C5_singleton_eq_scalar.2.1 "channel" [("channel", .seq [.s "#a"])]
     [("channel", .scalar (.s "#a"))] none "," (.s "#a") rfl rfl,
   C5_singleton_eq_scalar.2.2 "JOIN" "channel" (by decide) (.s "#a") []⟩

/-- C3 as stated is false on the code: "USERMODE" is a supported command and
`pack_command "USERMODE" {nick: "WiZ"}` is accepted, but its output
"MODE WiZ " neither begins with "USERMODE " nor equals "USERMODE". -/
theorem C3_counterexample :
    pack_command "USERMODE" [("nick", .scalar (.s "WiZ"))] = .ok "MODE WiZ " ∧
    ¬ beginsWith "USERMODE" "MODE WiZ " := by
  exact ⟨rfl, by decide⟩

/-- C3 amended: for every command name and parameter set accepted without
error, the output begins with the emitted command word followed by a space,
or equals the bare emitted word — where the emitted word is "MODE" for
USERMODE and CHANNELMODE and the uppercased command name for every other
supported command. -/
theorem C3_output_head (command : String) (kwargs : ParamSet) (out : String)
    (h : pack_command command kwargs = .ok out) :
    beginsWith (emitWord (pyUpper command)) out := by
  unfold pack_command at h
  split at h
  · exact Except.noConfusion h
  · generalize hu : pyUpper command = u at h ⊢
    split at h <;>
      (try simp only [rulePASS, ruleNICK, ruleUSER, ruleOPER, ruleUSERMODE,
        ruleSERVICE, ruleQUIT, ruleSQUIT, ruleJOIN, rulePART, ruleCHANNELMODE,
        ruleTOPIC, ruleNAMES, ruleLIST, ruleINVITE, ruleKICK, rulePRIVMSG,
        ruleNOTICE, ruleLUSERS, ruleSTATS, ruleLINKS, ruleCONNECT,
        ruleSERVLIST, ruleSQUERY, ruleWHO, ruleWHOIS, ruleWHOWAS, ruleKILL,
        rulePING, rulePONG, ruleAWAY, ruleSUMMON, ruleWALLOPS, ruleUSERHOST,
        ruleISON] at h) <;>
      (repeat' (split at h)) <;>
      first
        | exact Except.noConfusion h
        | (obtain rfl := Except.ok.inj h
           first
             | exact Or.inl rfl
             | (right
                repeat apply data_prefix_append
                first
                  | exact List.prefix_refl _
                  | decide))

/-- Witness for C3 amended: a regular command, plus the USERMODE renaming
case with the emitted word "MODE". -/
theorem C3_output_head_witness :
    beginsWith (emitWord (pyUpper "privmsg")) "PRIVMSG #chan :hi there" ∧
    beginsWith (emitWord (pyUpper "usermode")) "MODE WiZ " :=
  ⟨C3_output_head "privmsg"
     [("target", .scalar (.s "#chan")), ("message", .scalar (.s "hi there"))]
     "PRIVMSG #chan :hi there" rfl,
   C3_output_head "usermode" [("nick", .scalar (.s "WiZ"))] "MODE WiZ " rfl⟩

end Bottom
